import Mathlib

/-!
Shallow embedding of the core of `src/STEPViewer/src/main_web.cpp`
(the web STEP processor: entity scanner, cartesian-point extraction,
bounding box, UCS derivation, box-mesh builder, load pipeline).

Modelling conventions:
* C++ `std::string` is modelled as `List Char`; file content is a list of lines.
* C++ `double` is modelled as `ℝ`.  The text scanners return the exact value
  denoted by a decimal literal as an integer mantissa/exponent pair, injected
  into `ℝ` at `ParseCartesianPoint`; this keeps the scanning layer computable.
* `std::unordered_map<int, STEPEntity>` is modelled as an association list in
  insertion order.  `emplace` inserts only when the key is absent (as in C++).
  Iteration order of the map is unspecified in C++; the list order is one
  admissible order, and every property proved about iteration
  (bounding-box accumulation by componentwise min/max) is order-independent.
* `std::istream` extraction (`ss >> x >> comma >> y >> comma >> z`) is modelled
  with the C-locale float grammar: optional sign, digits, optional fraction,
  optional exponent.  On a failed extraction the target keeps the value 0
  (C++11 zero-on-failure for arithmetic extraction, with the `Point3D` members
  default-initialised to 0) and the stream stops (failbit), which the nested
  `Option` matches below reproduce.  Hex floats, inf/nan and the
  whole-field-consumption failure mode of `num_get` are not modelled; no
  theorem below depends on such inputs.
-/

/-- `isspace` in the default C locale (used by `std::ws` skipping,
`sscanf("%d")` and `::isspace` in the type-tag cleanup). -/
def isSpaceChar (c : Char) : Bool :=
  c = ' ' || c = '\t' || c = '\n' || c = '\x0B' || c = '\x0C' || c = '\r'

/-- Digit run to a natural number (decimal). -/
def digitsToNat (ds : List Char) : ℕ :=
  ds.foldl (fun a c => 10 * a + (c.toNat - 48)) 0

/-- Does `s` start with `pat`?  Helper for `std::string::find` of a literal. -/
def startsWithL : List Char → List Char → Bool
  | [], _ => true
  | _ :: _, [] => false
  | p :: ps, c :: cs => p = c && startsWithL ps cs

/-- `s.find(pat) != std::string::npos` for a literal `pat`. -/
def containsSub (pat : List Char) : List Char → Bool
  | [] => pat.isEmpty
  | c :: cs => startsWithL pat (c :: cs) || containsSub pat cs

/-- `s.find(c)`: index of the first occurrence of character `c`. -/
def findChar (c : Char) (s : List Char) : Option ℕ :=
  s.findIdx? (fun a => a = c)

/-- `s.rfind(c)`: index of the last occurrence of character `c`. -/
def rfindChar (c : Char) (s : List Char) : Option ℕ :=
  (findChar c s.reverse).map (fun i => s.length - 1 - i)

/-- `s.substr(b, e - b)` where `e - b` is computed in `size_t`: when `e < b`
the length wraps around to a huge value and `substr` clamps it to the rest of
the string. -/
def substrFT (s : List Char) (b e : ℕ) : List Char :=
  if b ≤ e then (s.drop b).take (e - b) else s.drop b

/-- `erase(remove_if(isspace))` on the type tag. -/
def stripSpaces (s : List Char) : List Char :=
  s.filter (fun c => !(isSpaceChar c))

/-- `sscanf(s, "%d", &id)`: skip whitespace, optional sign, at least one
digit; `none` on matching failure (in which case the C++ target keeps its
prior value). -/
def scanInt (cs : List Char) : Option ℤ :=
  let cs1 := cs.dropWhile isSpaceChar
  let sg : ℤ × List Char :=
    match cs1 with
    | '-' :: r => (-1, r)
    | '+' :: r => (1, r)
    | _ => (1, cs1)
  let ds := sg.2.takeWhile Char.isDigit
  if ds.isEmpty then none else some (sg.1 * (digitsToNat ds : ℤ))

/-- A scanned decimal literal, as integer mantissa and power-of-ten exponent:
the denoted value is `m * 10 ^ e`.  This representation keeps the scanner in
pure integer arithmetic (the exact value is injected into the reals by
`decValR` below). -/
abbrev Dec10 := ℤ × ℤ

/-- Mantissa/exponent of the decimal literal `sgn ds . fr`:
mantissa `sgn * (ds ++ fr)` read as an integer, exponent `-|fr|`. -/
def mantDec (sgn : ℤ) (ds fr : List Char) : Dec10 :=
  (sgn * ((digitsToNat ds : ℤ) * (10 : ℤ) ^ fr.length + (digitsToNat fr : ℤ)),
   -(fr.length : ℤ))

/-- Exponent part of the stream float grammar: `e`/`E` was consumed, parse
optional sign and at least one digit; an exponent marker without digits makes
the whole extraction fail (strtod rejects the accumulated field). -/
def scanExp (sgn : ℤ) (ds fr : List Char) (r : List Char) : Option (Dec10 × List Char) :=
  let sg : ℤ × List Char :=
    match r with
    | '-' :: r2 => (-1, r2)
    | '+' :: r2 => (1, r2)
    | _ => (1, r)
  let eds := sg.2.takeWhile Char.isDigit
  if eds.isEmpty then none
  else
    let m := mantDec sgn ds fr
    some ((m.1, m.2 + sg.1 * (digitsToNat eds : ℤ)), sg.2.dropWhile Char.isDigit)

/-- `stream >> (double&)`: skip whitespace, then C-locale float literal.
Returns the denoted decimal value and the unconsumed rest, or `none` on
extraction failure. -/
def scanFloat (cs : List Char) : Option (Dec10 × List Char) :=
  let cs1 := cs.dropWhile isSpaceChar
  let sg : ℤ × List Char :=
    match cs1 with
    | '-' :: r => (-1, r)
    | '+' :: r => (1, r)
    | _ => (1, cs1)
  let ds := sg.2.takeWhile Char.isDigit
  let cs3 := sg.2.dropWhile Char.isDigit
  let fp : List Char × List Char :=
    match cs3 with
    | '.' :: r => (r.takeWhile Char.isDigit, r.dropWhile Char.isDigit)
    | _ => ([], cs3)
  if ds.isEmpty && fp.1.isEmpty then none
  else
    match fp.2 with
    | 'e' :: r => scanExp sg.1 ds fp.1 r
    | 'E' :: r => scanExp sg.1 ds fp.1 r
    | _ => some (mantDec sg.1 ds fp.1, fp.2)

/-- `stream >> (char&)`: skip whitespace, take the next character. -/
def scanChar (cs : List Char) : Option (Char × List Char) :=
  match cs.dropWhile isSpaceChar with
  | [] => none
  | c :: r => some (c, r)

/-- The chained extraction `ss >> x >> comma >> y >> comma >> z` on the
coordinate text, with all three targets default-initialised to 0 and the
chain stopping at the first failure (failbit semantics). -/
def runCoordParse (cs : List Char) : Dec10 × Dec10 × Dec10 :=
  match scanFloat cs with
  | none => (0, 0, 0)
  | some (x, r1) =>
    match scanChar r1 with
    | none => (x, 0, 0)
    | some (_, r2) =>
      match scanFloat r2 with
      | none => (x, 0, 0)
      | some (y, r3) =>
        match scanChar r3 with
        | none => (x, y, 0)
        | some (_, r4) =>
          match scanFloat r4 with
          | none => (x, y, 0)
          | some (z, _) => (x, y, z)

/-- The discrete part of `STEPProcessorWeb::ParseCartesianPoint`: locate the
first `'('`, the last `')'`, then the second `'('`, and cut out the coordinate
text `substr(start + 1, end - start - 1)`.  `none` when any `find` fails, in
which case the function returns the default point. -/
def coordText (data : List Char) : Option (List Char) :=
  match findChar '(' data, rfindChar ')' data with
  | some st0, some en =>
    match (findChar '(' (data.drop (st0 + 1))).map (fun i => i + (st0 + 1)) with
    | some st => some (substrFT data (st + 1) en)
    | none => none
  | _, _ => none

/-- One STEP entity record: id, type tag, raw data payload. -/
structure STEPEntity where
  id : ℤ
  type : List Char
  data : List Char
deriving DecidableEq, Repr

/-- The entity table `std::unordered_map<int, STEPEntity>`, as an association
list in insertion order. -/
abbrev Table := List (ℤ × STEPEntity)

/-- Parsing one complete record buffer (`ParseSTEPFile`, lines 490-506):
locate `'#'`, `'='`, `'('`; on success read the id with `sscanf "%d"`
(`id` stays 0 on a failed scan), take the whitespace-stripped type tag
between `'='` and `'('`, and the payload from `'('` to the end. -/
def parseRecord (buf : List Char) : Option STEPEntity :=
  match findChar '#' buf, findChar '=' buf, findChar '(' buf with
  | some idPos, some eqPos, some tyPos =>
    some { id := (scanInt (buf.drop (idPos + 1))).getD 0
           type := stripSpaces (substrFT buf (eqPos + 1) tyPos)
           data := buf.drop tyPos }
  | _, _, _ => none

/-- `m_entities.emplace(id, ...)`: inserts only when the key is absent
(first write wins; a duplicate id is silently ignored). -/
def emplaceEntity (t : Table) (e : STEPEntity) : Table :=
  if t.any (fun p => p.1 == e.id) then t else t ++ [(e.id, e)]

/-- Complete-record handling inside the scan loop: records missing any of
`#`, `=`, `(` are silently dropped. -/
def processBuf (t : Table) (buf : List Char) : Table :=
  match parseRecord buf with
  | some e => emplaceEntity t e
  | none => t

/-- Section marker `DATA;`. -/
def dataMarker : List Char := "DATA;".data

/-- Section marker `ENDSEC;`. -/
def endsecMarker : List Char := "ENDSEC;".data

/-- The type tag recognised by the geometry extractor. -/
def cartesianTag : List Char := "CARTESIAN_POINT".data

/-- The two-state line scanner of `ParseSTEPFile`: `DATA;` enters the data
section, `ENDSEC;` leaves it; inside, lines are appended to the current
entity buffer, and a line containing `';'` completes the record. -/
def scanLines : List (List Char) → Bool → List Char → Table → Table
  | [], _, _, t => t
  | l :: ls, inData, cur, t =>
    if containsSub dataMarker l then scanLines ls true cur t
    else if containsSub endsecMarker l then scanLines ls false cur t
    else if inData then
      let cur2 := cur ++ l
      if l.any (fun c => c = ';') then scanLines ls inData [] (processBuf t cur2)
      else scanLines ls inData cur2 t
    else scanLines ls inData cur t

/-- The entity table produced from the raw file lines. -/
def buildTable (lines : List (List Char)) : Table :=
  scanLines lines false [] []

/-! ## Geometry primitives (doubles modelled as real numbers) -/

/-- `struct Point3D`, default-constructed members are 0. -/
@[ext]
structure Point3D where
  x : ℝ
  y : ℝ
  z : ℝ

/-- `struct Vector3D`. -/
@[ext]
structure Vector3D where
  x : ℝ
  y : ℝ
  z : ℝ

/-- `Vector3D(const Point3D& p1, const Point3D& p2)`: difference vector. -/
def Vector3D.ofPoints (p1 p2 : Point3D) : Vector3D :=
  ⟨p2.x - p1.x, p2.y - p1.y, p2.z - p1.z⟩

/-- `Vector3D::cross`. -/
def Vector3D.cross (v o : Vector3D) : Vector3D :=
  ⟨v.y * o.z - v.z * o.y, v.z * o.x - v.x * o.z, v.x * o.y - v.y * o.x⟩

/-- `Vector3D::length`: Euclidean length. -/
noncomputable def Vector3D.length (v : Vector3D) : ℝ :=
  Real.sqrt (v.x * v.x + v.y * v.y + v.z * v.z)

/-- `Vector3D::normalize`: divide by the length when it is positive,
otherwise return the vector unchanged (so the division never has a zero
divisor). -/
noncomputable def Vector3D.normalize (v : Vector3D) : Vector3D :=
  if 0 < v.length then ⟨v.x / v.length, v.y / v.length, v.z / v.length⟩ else v

/-- Dot product; not in the source, used only to state orthogonality. -/
def Vector3D.dot (v o : Vector3D) : ℝ :=
  v.x * o.x + v.y * o.y + v.z * o.z

/-- `struct BoundingBox`: min/max corners. -/
@[ext]
structure BoundingBox where
  min : Point3D
  max : Point3D

/-- The `BoundingBox()` constructor: sentinel corners
`min = (1e9, 1e9, 1e9)`, `max = (-1e9, -1e9, -1e9)`. -/
def BoundingBox.init : BoundingBox :=
  ⟨⟨1000000000, 1000000000, 1000000000⟩, ⟨-1000000000, -1000000000, -1000000000⟩⟩

/-- `BoundingBox::expand`: componentwise min/max with the point. -/
noncomputable def BoundingBox.expand (b : BoundingBox) (p : Point3D) : BoundingBox :=
  ⟨⟨Min.min b.min.x p.x, Min.min b.min.y p.y, Min.min b.min.z p.z⟩,
   ⟨Max.max b.max.x p.x, Max.max b.max.y p.y, Max.max b.max.z p.z⟩⟩

/-- `BoundingBox::center`: midpoint of the corners. -/
noncomputable def BoundingBox.center (b : BoundingBox) : Point3D :=
  ⟨(b.min.x + b.max.x) / 2, (b.min.y + b.max.y) / 2, (b.min.z + b.max.z) / 2⟩

/-- `BoundingBox::dimensions`: `max - min` as a vector. -/
def BoundingBox.dimensions (b : BoundingBox) : Vector3D :=
  ⟨b.max.x - b.min.x, b.max.y - b.min.y, b.max.z - b.min.z⟩

/-- `struct UCS`: origin and three axis vectors. -/
@[ext]
structure UCS where
  origin : Point3D
  xAxis : Vector3D
  yAxis : Vector3D
  zAxis : Vector3D

/-- The `UCS()` constructor: world origin and world-aligned axes. -/
def UCS.init : UCS :=
  ⟨⟨0, 0, 0⟩, ⟨1, 0, 0⟩, ⟨0, 1, 0⟩, ⟨0, 0, 1⟩⟩

/-- `struct MeshData`: flat vertex/normal buffers and triangle indices. -/
@[ext]
structure MeshData where
  vertices : List ℝ
  normals : List ℝ
  indices : List ℕ

/-- `MeshData::clear()` / the empty mesh. -/
def MeshData.empty : MeshData := ⟨[], [], []⟩

/-- `MeshData::addTriangle`: compute the face normal from two edge vectors,
push the three vertices, push the normal three times (one copy per vertex),
and push three consecutive indices starting at `vertices.size() / 3`. -/
noncomputable def MeshData.addTriangle (m : MeshData) (p1 p2 p3 : Point3D) : MeshData :=
  let v1 := Vector3D.ofPoints p1 p2
  let v2 := Vector3D.ofPoints p1 p3
  let n := (v1.cross v2).normalize
  let startIdx := m.vertices.length / 3
  { vertices := m.vertices ++ [p1.x, p1.y, p1.z, p2.x, p2.y, p2.z, p3.x, p3.y, p3.z]
    normals := m.normals ++ [n.x, n.y, n.z, n.x, n.y, n.z, n.x, n.y, n.z]
    indices := m.indices ++ [startIdx, startIdx + 1, startIdx + 2] }

/-- `MeshData::addQuad`: two triangles sharing the diagonal `p1 p3`. -/
noncomputable def MeshData.addQuad (m : MeshData) (p1 p2 p3 p4 : Point3D) : MeshData :=
  (m.addTriangle p1 p2 p3).addTriangle p1 p3 p4

/-- Group a flat normal buffer into vector triples (for stating per-normal
properties; the buffer length is always a multiple of 3 here). -/
def normTriples : List ℝ → List Vector3D
  | x :: y :: z :: rest => ⟨x, y, z⟩ :: normTriples rest
  | _ => []

/-! ## The processor -/

/-- The mutable state of `class STEPProcessorWeb`. -/
structure STEPProcessorWeb where
  m_currentFile : List Char
  m_fileLoaded : Bool
  m_ucs : UCS
  m_boundingBox : BoundingBox
  m_stepData : List (List Char)
  m_mesh : MeshData
  m_entities : Table

/-- A freshly constructed processor (`m_fileLoaded = false`, members
default-constructed). -/
def STEPProcessorWeb.mkNew : STEPProcessorWeb :=
  ⟨[], false, UCS.init, BoundingBox.init, [], MeshData.empty, []⟩

/-- The real value denoted by a scanned decimal literal. -/
noncomputable def decValR (p : Dec10) : ℝ :=
  (p.1 : ℝ) * (10 : ℝ) ^ p.2

/-- `ParseCartesianPoint`: cut out the coordinate text between the second
`'('` and the last `')'` and run the stream extraction; on any failure the
missing coordinates stay at their default value 0. -/
noncomputable def STEPProcessorWeb.ParseCartesianPoint (data : List Char) : Point3D :=
  match coordText data with
  | none => ⟨0, 0, 0⟩
  | some cs =>
    let r := runCoordParse cs
    ⟨decValR r.1, decValR r.2.1, decValR r.2.2⟩

/-- The entity loop of `ExtractMesh` (lines 529-536): expand the running
bounding box with every entity whose type tag is `CARTESIAN_POINT`. -/
noncomputable def extractPoints (t : Table) (bb : BoundingBox) : BoundingBox :=
  t.foldl
    (fun b p =>
      if p.2.type = cartesianTag then b.expand (STEPProcessorWeb.ParseCartesianPoint p.2.data)
      else b)
    bb

/-- `CreateBoxMesh(width, height, depth)`: the eight corners at
`(±w/2, ±h/2, ±d/2)`, expand the bounding box with all of them, then emit the
six quads in source order (front, back, top, bottom, right, left).
Returns the updated `(m_boundingBox, m_mesh)`. -/
noncomputable def STEPProcessorWeb.CreateBoxMesh (bb : BoundingBox) (m : MeshData)
    (width height depth : ℝ) : BoundingBox × MeshData :=
  let hw := width / 2
  let hh := height / 2
  let hd := depth / 2
  let v0 : Point3D := ⟨-hw, -hh, -hd⟩
  let v1 : Point3D := ⟨hw, -hh, -hd⟩
  let v2 : Point3D := ⟨hw, hh, -hd⟩
  let v3 : Point3D := ⟨-hw, hh, -hd⟩
  let v4 : Point3D := ⟨-hw, -hh, hd⟩
  let v5 : Point3D := ⟨hw, -hh, hd⟩
  let v6 : Point3D := ⟨hw, hh, hd⟩
  let v7 : Point3D := ⟨-hw, hh, hd⟩
  let bb1 := ((((((((bb.expand v0).expand v1).expand v2).expand v3).expand
      v4).expand v5).expand v6).expand v7)
  let m1 := m.addQuad v4 v5 v6 v7
  let m2 := m1.addQuad v1 v0 v3 v2
  let m3 := m2.addQuad v7 v6 v2 v3
  let m4 := m3.addQuad v0 v1 v5 v4
  let m5 := m4.addQuad v5 v1 v2 v6
  let m6 := m5.addQuad v0 v4 v7 v3
  (bb1, m6)

/-- `ParseSTEPFile`: build the entity table from the stored lines; succeeds
iff the table is non-empty. -/
def STEPProcessorWeb.ParseSTEPFile (p : STEPProcessorWeb) : Bool × STEPProcessorWeb :=
  let t := buildTable p.m_stepData
  (!t.isEmpty, { p with m_entities := t })

/-- `ExtractMesh`: with no entities build the default `100 x 60 x 40` box;
otherwise accumulate the bounding box over all `CARTESIAN_POINT` entities and
build a box from its dimensions when `min.x < max.x`, else the default box.
Every path sets `meshCreated = true`, so the method never fails. -/
noncomputable def STEPProcessorWeb.ExtractMesh (p : STEPProcessorWeb) :
    Bool × STEPProcessorWeb :=
  if p.m_entities = [] then
    let r := STEPProcessorWeb.CreateBoxMesh p.m_boundingBox p.m_mesh 100 60 40
    (true, { p with m_boundingBox := r.1, m_mesh := r.2 })
  else
    let bb1 := extractPoints p.m_entities p.m_boundingBox
    if bb1.min.x < bb1.max.x then
      let r := STEPProcessorWeb.CreateBoxMesh bb1 p.m_mesh
          bb1.dimensions.x bb1.dimensions.y bb1.dimensions.z
      (true, { p with m_boundingBox := r.1, m_mesh := r.2 })
    else
      let r := STEPProcessorWeb.CreateBoxMesh bb1 p.m_mesh 100 60 40
      (true, { p with m_boundingBox := r.1, m_mesh := r.2 })

/-- `LoadSTEPFile`: set the current file, clear all derived members, store
the file's lines, then run `ParseSTEPFile() && ExtractMesh()` (short-circuit);
only on success is `m_fileLoaded` set to `true`.  The raw lines of the opened
file are passed in (the Emscripten build reads them from the virtual
filesystem); failure to open the file is not modelled. -/
noncomputable def STEPProcessorWeb.LoadSTEPFile (p : STEPProcessorWeb)
    (filename : List Char) (lines : List (List Char)) : Bool × STEPProcessorWeb :=
  let s0 : STEPProcessorWeb :=
    { p with m_currentFile := filename, m_stepData := lines, m_entities := [],
             m_mesh := MeshData.empty, m_boundingBox := BoundingBox.init }
  let pr := s0.ParseSTEPFile
  if pr.1 then
    let er := pr.2.ExtractMesh
    if er.1 then (true, { er.2 with m_fileLoaded := true }) else (false, er.2)
  else (false, pr.2)

/-- The UCS computed by `CreateUCS` from the bounding box: origin at the
center; the world axis of the dominant extent becomes `zAxis` (first matching
branch: X, then Y, else Z) with a fixed non-parallel candidate `xAxis`;
`yAxis = normalize(zAxis x xAxis)` and `xAxis` is recomputed as
`normalize(yAxis x zAxis)`. -/
noncomputable def ucsFromBox (bb : BoundingBox) : UCS :=
  let dims := bb.dimensions
  let zx : Vector3D × Vector3D :=
    if dims.x ≥ dims.y ∧ dims.x ≥ dims.z then (⟨1, 0, 0⟩, ⟨0, 1, 0⟩)
    else if dims.y ≥ dims.x ∧ dims.y ≥ dims.z then (⟨0, 1, 0⟩, ⟨1, 0, 0⟩)
    else (⟨0, 0, 1⟩, ⟨1, 0, 0⟩)
  let yA := (zx.1.cross zx.2).normalize
  let xA := (yA.cross zx.1).normalize
  ⟨bb.center, xA, yA, zx.1⟩

/-- `CreateUCS`: a no-op unless a file is loaded; otherwise overwrite every
field of `m_ucs` from the bounding box. -/
noncomputable def STEPProcessorWeb.CreateUCS (p : STEPProcessorWeb) : STEPProcessorWeb :=
  if p.m_fileLoaded then { p with m_ucs := ucsFromBox p.m_boundingBox } else p

/-! ## Concrete inputs used by witnesses and counterexamples -/

/-- A data section with no records at all. -/
def linesNoRecords : List (List Char) := ["DATA;".data, "ENDSEC;".data]

/-- The round-trip file of the spec: two cartesian points. -/
def linesRoundTrip : List (List Char) :=
  ["DATA;".data,
   "#1=CARTESIAN_POINT('',(-10.0,-5.0,-2.0));".data,
   "#2=CARTESIAN_POINT('',(10.0,5.0,8.0));".data,
   "ENDSEC;".data]

/-- Two complete records with the same id `#1`. -/
def linesDupId : List (List Char) :=
  ["DATA;".data, "#1=PRODUCT(A);".data, "#1=SHAPE(B);".data, "ENDSEC;".data]

/-- A file whose only cartesian point has `x = 1e9`. -/
def linesBigX : List (List Char) :=
  ["DATA;".data, "#1=CARTESIAN_POINT('',(1000000000.0,0.0,0.0));".data, "ENDSEC;".data]

/-- A cartesian-point entity whose payload has no second `'('`, so the
coordinate text cannot be located (the payload fails to parse). -/
def malformedPoint : STEPEntity := ⟨2, cartesianTag, "('');".data⟩

/-- A degenerate bounding box already expanded to the single point (5,5,5). -/
def bbFive : BoundingBox := ⟨⟨5, 5, 5⟩, ⟨5, 5, 5⟩⟩

/-- Entity table with points (0,0,0) and (10,0,0): usable in x, degenerate
(zero extent) in y and z. -/
def flatTable : Table :=
  [(1, ⟨1, cartesianTag, "('',(0.0,0.0,0.0));".data⟩),
   (2, ⟨2, cartesianTag, "('',(10.0,0.0,0.0));".data⟩)]

/-- A processor whose entity table is `flatTable`. -/
def procFlat : STEPProcessorWeb :=
  ⟨[], false, UCS.init, BoundingBox.init, [], MeshData.empty, flatTable⟩

/-- A loaded processor with a non-empty entity table (previous-session state
for the failed-reload counterexample). -/
def procLoaded : STEPProcessorWeb :=
  ⟨"a.step".data, true, UCS.init, ⟨⟨0, 0, 0⟩, ⟨1, 2, 3⟩⟩, [],
   MeshData.empty, [(7, ⟨7, "PRODUCT".data, "(A);".data⟩)]⟩

/-- A loaded processor with bounding box `(0,0,0) .. (3,2,1)` (distinct
positive dimensions, x dominant). -/
def procBox321 : STEPProcessorWeb :=
  ⟨[], true, UCS.init, ⟨⟨0, 0, 0⟩, ⟨3, 2, 1⟩⟩, [], MeshData.empty, []⟩

/-! ## Helper lemmas about normalization -/

theorem normalize_px (c : ℝ) (hc : 0 < c) : Vector3D.normalize ⟨c, 0, 0⟩ = ⟨1, 0, 0⟩ := by
  have hl : Vector3D.length ⟨c, 0, 0⟩ = c := by
    rw [Vector3D.length]
    rw [show c * c + 0 * 0 + 0 * 0 = c * c by ring, Real.sqrt_mul_self hc.le]
  simp only [Vector3D.normalize, hl, if_pos hc]
  simp [div_self hc.ne']

theorem normalize_nx (c : ℝ) (hc : 0 < c) : Vector3D.normalize ⟨-c, 0, 0⟩ = ⟨-1, 0, 0⟩ := by
  have hl : Vector3D.length ⟨-c, 0, 0⟩ = c := by
    rw [Vector3D.length]
    rw [show -c * -c + 0 * 0 + 0 * 0 = c * c by ring, Real.sqrt_mul_self hc.le]
  simp only [Vector3D.normalize, hl, if_pos hc]
  simp [div_self hc.ne', neg_div]

theorem normalize_py (c : ℝ) (hc : 0 < c) : Vector3D.normalize ⟨0, c, 0⟩ = ⟨0, 1, 0⟩ := by
  have hl : Vector3D.length ⟨0, c, 0⟩ = c := by
    rw [Vector3D.length]
    rw [show (0:ℝ) * 0 + c * c + 0 * 0 = c * c by ring, Real.sqrt_mul_self hc.le]
  simp only [Vector3D.normalize, hl, if_pos hc]
  simp [div_self hc.ne']

theorem normalize_ny (c : ℝ) (hc : 0 < c) : Vector3D.normalize ⟨0, -c, 0⟩ = ⟨0, -1, 0⟩ := by
  have hl : Vector3D.length ⟨0, -c, 0⟩ = c := by
    rw [Vector3D.length]
    rw [show (0:ℝ) * 0 + -c * -c + 0 * 0 = c * c by ring, Real.sqrt_mul_self hc.le]
  simp only [Vector3D.normalize, hl, if_pos hc]
  simp [div_self hc.ne', neg_div]

theorem normalize_pz (c : ℝ) (hc : 0 < c) : Vector3D.normalize ⟨0, 0, c⟩ = ⟨0, 0, 1⟩ := by
  have hl : Vector3D.length ⟨0, 0, c⟩ = c := by
    rw [Vector3D.length]
    rw [show (0:ℝ) * 0 + 0 * 0 + c * c = c * c by ring, Real.sqrt_mul_self hc.le]
  simp only [Vector3D.normalize, hl, if_pos hc]
  simp [div_self hc.ne']

theorem normalize_nz (c : ℝ) (hc : 0 < c) : Vector3D.normalize ⟨0, 0, -c⟩ = ⟨0, 0, -1⟩ := by
  have hl : Vector3D.length ⟨0, 0, -c⟩ = c := by
    rw [Vector3D.length]
    rw [show (0:ℝ) * 0 + 0 * 0 + -c * -c = c * c by ring, Real.sqrt_mul_self hc.le]
  simp only [Vector3D.normalize, hl, if_pos hc]
  simp [div_self hc.ne', neg_div]

theorem length_unit_px : Vector3D.length ⟨1, 0, 0⟩ = 1 := by
  rw [Vector3D.length]
  rw [show (1:ℝ) * 1 + 0 * 0 + 0 * 0 = 1 by ring, Real.sqrt_one]

theorem length_unit_py : Vector3D.length ⟨0, 1, 0⟩ = 1 := by
  rw [Vector3D.length]
  rw [show (0:ℝ) * 0 + 1 * 1 + 0 * 0 = 1 by ring, Real.sqrt_one]

theorem length_unit_pz : Vector3D.length ⟨0, 0, 1⟩ = 1 := by
  rw [Vector3D.length]
  rw [show (0:ℝ) * 0 + 0 * 0 + 1 * 1 = 1 by ring, Real.sqrt_one]

theorem length_unit_nz : Vector3D.length ⟨0, 0, -1⟩ = 1 := by
  rw [Vector3D.length]
  rw [show (0:ℝ) * 0 + 0 * 0 + -1 * -1 = 1 by ring, Real.sqrt_one]

theorem normalize_length (v : Vector3D) (h : v.length ≠ 0) : v.normalize.length = 1 := by
  have hpos : 0 < v.length := lt_of_le_of_ne (Real.sqrt_nonneg _) (Ne.symm h)
  have hS : 0 < v.x * v.x + v.y * v.y + v.z * v.z := by
    have hp := hpos
    rw [Vector3D.length] at hp
    exact Real.sqrt_pos.mp hp
  have hll : v.length * v.length = v.x * v.x + v.y * v.y + v.z * v.z := by
    rw [Vector3D.length]
    exact Real.mul_self_sqrt (by positivity)
  have hlne : v.length ≠ 0 := h
  rw [Vector3D.normalize, if_pos hpos, Vector3D.length]
  have harg : v.x / v.length * (v.x / v.length) + v.y / v.length * (v.y / v.length) +
      v.z / v.length * (v.z / v.length)
      = (v.x * v.x + v.y * v.y + v.z * v.z) / (v.length * v.length) := by
    field_simp
  rw [harg, hll, div_self hS.ne', Real.sqrt_one]

theorem length_unit_nx : Vector3D.length ⟨-1, 0, 0⟩ = 1 := by
  rw [Vector3D.length]
  rw [show (-1:ℝ) * -1 + 0 * 0 + 0 * 0 = 1 by ring, Real.sqrt_one]

theorem length_unit_ny : Vector3D.length ⟨0, -1, 0⟩ = 1 := by
  rw [Vector3D.length]
  rw [show (0:ℝ) * 0 + -1 * -1 + 0 * 0 = 1 by ring, Real.sqrt_one]

/-- The normal buffer written by `CreateBoxMesh`: twelve copies (two triangles
per face) of the six outward unit face normals, each repeated for the
triangle's three vertices. -/
theorem box_normals (bb : BoundingBox) (m : MeshData) (w h d : ℝ)
    (hw : 0 < w) (hh : 0 < h) (hd : 0 < d) :
    (STEPProcessorWeb.CreateBoxMesh bb m w h d).2.normals = m.normals ++
      ([0, 0, 1, 0, 0, 1, 0, 0, 1] ++ [0, 0, 1, 0, 0, 1, 0, 0, 1] ++
       [0, 0, -1, 0, 0, -1, 0, 0, -1] ++ [0, 0, -1, 0, 0, -1, 0, 0, -1] ++
       [0, 1, 0, 0, 1, 0, 0, 1, 0] ++ [0, 1, 0, 0, 1, 0, 0, 1, 0] ++
       [0, -1, 0, 0, -1, 0, 0, -1, 0] ++ [0, -1, 0, 0, -1, 0, 0, -1, 0] ++
       [1, 0, 0, 1, 0, 0, 1, 0, 0] ++ [1, 0, 0, 1, 0, 0, 1, 0, 0] ++
       [-1, 0, 0, -1, 0, 0, -1, 0, 0] ++ [-1, 0, 0, -1, 0, 0, -1, 0, 0]) := by
  have q1a : ((Vector3D.ofPoints ⟨-(w/2), -(h/2), d/2⟩ ⟨w/2, -(h/2), d/2⟩).cross
      (Vector3D.ofPoints ⟨-(w/2), -(h/2), d/2⟩ ⟨w/2, h/2, d/2⟩)).normalize = ⟨0, 0, 1⟩ := by
    have hc : (Vector3D.ofPoints (⟨-(w/2), -(h/2), d/2⟩ : Point3D) ⟨w/2, -(h/2), d/2⟩).cross
        (Vector3D.ofPoints ⟨-(w/2), -(h/2), d/2⟩ ⟨w/2, h/2, d/2⟩) = ⟨0, 0, w*h⟩ := by
      simp only [Vector3D.ofPoints, Vector3D.cross, Vector3D.mk.injEq]
      refine ⟨by ring, by ring, by ring⟩
    rw [hc]
    exact normalize_pz (w*h) (mul_pos hw hh)
  have q1b : ((Vector3D.ofPoints ⟨-(w/2), -(h/2), d/2⟩ ⟨w/2, h/2, d/2⟩).cross
      (Vector3D.ofPoints ⟨-(w/2), -(h/2), d/2⟩ ⟨-(w/2), h/2, d/2⟩)).normalize = ⟨0, 0, 1⟩ := by
    have hc : (Vector3D.ofPoints (⟨-(w/2), -(h/2), d/2⟩ : Point3D) ⟨w/2, h/2, d/2⟩).cross
        (Vector3D.ofPoints ⟨-(w/2), -(h/2), d/2⟩ ⟨-(w/2), h/2, d/2⟩) = ⟨0, 0, w*h⟩ := by
      simp only [Vector3D.ofPoints, Vector3D.cross, Vector3D.mk.injEq]
      refine ⟨by ring, by ring, by ring⟩
    rw [hc]
    exact normalize_pz (w*h) (mul_pos hw hh)
  have q2a : ((Vector3D.ofPoints ⟨w/2, -(h/2), -(d/2)⟩ ⟨-(w/2), -(h/2), -(d/2)⟩).cross
      (Vector3D.ofPoints ⟨w/2, -(h/2), -(d/2)⟩ ⟨-(w/2), h/2, -(d/2)⟩)).normalize = ⟨0, 0, -1⟩ := by
    have hc : (Vector3D.ofPoints (⟨w/2, -(h/2), -(d/2)⟩ : Point3D) ⟨-(w/2), -(h/2), -(d/2)⟩).cross
        (Vector3D.ofPoints ⟨w/2, -(h/2), -(d/2)⟩ ⟨-(w/2), h/2, -(d/2)⟩) = ⟨0, 0, -(w*h)⟩ := by
      simp only [Vector3D.ofPoints, Vector3D.cross, Vector3D.mk.injEq]
      refine ⟨by ring, by ring, by ring⟩
    rw [hc]
    exact normalize_nz (w*h) (mul_pos hw hh)
  have q2b : ((Vector3D.ofPoints ⟨w/2, -(h/2), -(d/2)⟩ ⟨-(w/2), h/2, -(d/2)⟩).cross
      (Vector3D.ofPoints ⟨w/2, -(h/2), -(d/2)⟩ ⟨w/2, h/2, -(d/2)⟩)).normalize = ⟨0, 0, -1⟩ := by
    have hc : (Vector3D.ofPoints (⟨w/2, -(h/2), -(d/2)⟩ : Point3D) ⟨-(w/2), h/2, -(d/2)⟩).cross
        (Vector3D.ofPoints ⟨w/2, -(h/2), -(d/2)⟩ ⟨w/2, h/2, -(d/2)⟩) = ⟨0, 0, -(w*h)⟩ := by
      simp only [Vector3D.ofPoints, Vector3D.cross, Vector3D.mk.injEq]
      refine ⟨by ring, by ring, by ring⟩
    rw [hc]
    exact normalize_nz (w*h) (mul_pos hw hh)
  have q3a : ((Vector3D.ofPoints ⟨-(w/2), h/2, d/2⟩ ⟨w/2, h/2, d/2⟩).cross
      (Vector3D.ofPoints ⟨-(w/2), h/2, d/2⟩ ⟨w/2, h/2, -(d/2)⟩)).normalize = ⟨0, 1, 0⟩ := by
    have hc : (Vector3D.ofPoints (⟨-(w/2), h/2, d/2⟩ : Point3D) ⟨w/2, h/2, d/2⟩).cross
        (Vector3D.ofPoints ⟨-(w/2), h/2, d/2⟩ ⟨w/2, h/2, -(d/2)⟩) = ⟨0, w*d, 0⟩ := by
      simp only [Vector3D.ofPoints, Vector3D.cross, Vector3D.mk.injEq]
      refine ⟨by ring, by ring, by ring⟩
    rw [hc]
    exact normalize_py (w*d) (mul_pos hw hd)
  have q3b : ((Vector3D.ofPoints ⟨-(w/2), h/2, d/2⟩ ⟨w/2, h/2, -(d/2)⟩).cross
      (Vector3D.ofPoints ⟨-(w/2), h/2, d/2⟩ ⟨-(w/2), h/2, -(d/2)⟩)).normalize = ⟨0, 1, 0⟩ := by
    have hc : (Vector3D.ofPoints (⟨-(w/2), h/2, d/2⟩ : Point3D) ⟨w/2, h/2, -(d/2)⟩).cross
        (Vector3D.ofPoints ⟨-(w/2), h/2, d/2⟩ ⟨-(w/2), h/2, -(d/2)⟩) = ⟨0, w*d, 0⟩ := by
      simp only [Vector3D.ofPoints, Vector3D.cross, Vector3D.mk.injEq]
      refine ⟨by ring, by ring, by ring⟩
    rw [hc]
    exact normalize_py (w*d) (mul_pos hw hd)
  have q4a : ((Vector3D.ofPoints ⟨-(w/2), -(h/2), -(d/2)⟩ ⟨w/2, -(h/2), -(d/2)⟩).cross
      (Vector3D.ofPoints ⟨-(w/2), -(h/2), -(d/2)⟩ ⟨w/2, -(h/2), d/2⟩)).normalize = ⟨0, -1, 0⟩ := by
    have hc : (Vector3D.ofPoints (⟨-(w/2), -(h/2), -(d/2)⟩ : Point3D) ⟨w/2, -(h/2), -(d/2)⟩).cross
        (Vector3D.ofPoints ⟨-(w/2), -(h/2), -(d/2)⟩ ⟨w/2, -(h/2), d/2⟩) = ⟨0, -(w*d), 0⟩ := by
      simp only [Vector3D.ofPoints, Vector3D.cross, Vector3D.mk.injEq]
      refine ⟨by ring, by ring, by ring⟩
    rw [hc]
    exact normalize_ny (w*d) (mul_pos hw hd)
  have q4b : ((Vector3D.ofPoints ⟨-(w/2), -(h/2), -(d/2)⟩ ⟨w/2, -(h/2), d/2⟩).cross
      (Vector3D.ofPoints ⟨-(w/2), -(h/2), -(d/2)⟩ ⟨-(w/2), -(h/2), d/2⟩)).normalize = ⟨0, -1, 0⟩ := by
    have hc : (Vector3D.ofPoints (⟨-(w/2), -(h/2), -(d/2)⟩ : Point3D) ⟨w/2, -(h/2), d/2⟩).cross
        (Vector3D.ofPoints ⟨-(w/2), -(h/2), -(d/2)⟩ ⟨-(w/2), -(h/2), d/2⟩) = ⟨0, -(w*d), 0⟩ := by
      simp only [Vector3D.ofPoints, Vector3D.cross, Vector3D.mk.injEq]
      refine ⟨by ring, by ring, by ring⟩
    rw [hc]
    exact normalize_ny (w*d) (mul_pos hw hd)
  have q5a : ((Vector3D.ofPoints ⟨w/2, -(h/2), d/2⟩ ⟨w/2, -(h/2), -(d/2)⟩).cross
      (Vector3D.ofPoints ⟨w/2, -(h/2), d/2⟩ ⟨w/2, h/2, -(d/2)⟩)).normalize = ⟨1, 0, 0⟩ := by
    have hc : (Vector3D.ofPoints (⟨w/2, -(h/2), d/2⟩ : Point3D) ⟨w/2, -(h/2), -(d/2)⟩).cross
        (Vector3D.ofPoints ⟨w/2, -(h/2), d/2⟩ ⟨w/2, h/2, -(d/2)⟩) = ⟨d*h, 0, 0⟩ := by
      simp only [Vector3D.ofPoints, Vector3D.cross, Vector3D.mk.injEq]
      refine ⟨by ring, by ring, by ring⟩
    rw [hc]
    exact normalize_px (d*h) (mul_pos hd hh)
  have q5b : ((Vector3D.ofPoints ⟨w/2, -(h/2), d/2⟩ ⟨w/2, h/2, -(d/2)⟩).cross
      (Vector3D.ofPoints ⟨w/2, -(h/2), d/2⟩ ⟨w/2, h/2, d/2⟩)).normalize = ⟨1, 0, 0⟩ := by
    have hc : (Vector3D.ofPoints (⟨w/2, -(h/2), d/2⟩ : Point3D) ⟨w/2, h/2, -(d/2)⟩).cross
        (Vector3D.ofPoints ⟨w/2, -(h/2), d/2⟩ ⟨w/2, h/2, d/2⟩) = ⟨d*h, 0, 0⟩ := by
      simp only [Vector3D.ofPoints, Vector3D.cross, Vector3D.mk.injEq]
      refine ⟨by ring, by ring, by ring⟩
    rw [hc]
    exact normalize_px (d*h) (mul_pos hd hh)
  have q6a : ((Vector3D.ofPoints ⟨-(w/2), -(h/2), -(d/2)⟩ ⟨-(w/2), -(h/2), d/2⟩).cross
      (Vector3D.ofPoints ⟨-(w/2), -(h/2), -(d/2)⟩ ⟨-(w/2), h/2, d/2⟩)).normalize = ⟨-1, 0, 0⟩ := by
    have hc : (Vector3D.ofPoints (⟨-(w/2), -(h/2), -(d/2)⟩ : Point3D) ⟨-(w/2), -(h/2), d/2⟩).cross
        (Vector3D.ofPoints ⟨-(w/2), -(h/2), -(d/2)⟩ ⟨-(w/2), h/2, d/2⟩) = ⟨-(d*h), 0, 0⟩ := by
      simp only [Vector3D.ofPoints, Vector3D.cross, Vector3D.mk.injEq]
      refine ⟨by ring, by ring, by ring⟩
    rw [hc]
    exact normalize_nx (d*h) (mul_pos hd hh)
  have q6b : ((Vector3D.ofPoints ⟨-(w/2), -(h/2), -(d/2)⟩ ⟨-(w/2), h/2, d/2⟩).cross
      (Vector3D.ofPoints ⟨-(w/2), -(h/2), -(d/2)⟩ ⟨-(w/2), h/2, -(d/2)⟩)).normalize = ⟨-1, 0, 0⟩ := by
    have hc : (Vector3D.ofPoints (⟨-(w/2), -(h/2), -(d/2)⟩ : Point3D) ⟨-(w/2), h/2, d/2⟩).cross
        (Vector3D.ofPoints ⟨-(w/2), -(h/2), -(d/2)⟩ ⟨-(w/2), h/2, -(d/2)⟩) = ⟨-(d*h), 0, 0⟩ := by
      simp only [Vector3D.ofPoints, Vector3D.cross, Vector3D.mk.injEq]
      refine ⟨by ring, by ring, by ring⟩
    rw [hc]
    exact normalize_nx (d*h) (mul_pos hd hh)
  simp only [STEPProcessorWeb.CreateBoxMesh, MeshData.addQuad, MeshData.addTriangle,
    q1a, q1b, q2a, q2b, q3a, q3b, q4a, q4b, q5a, q5b, q6a, q6b, List.append_assoc]

/-- A failed parse (zero entity records) still clears and re-targets the
session: only `m_fileLoaded` and `m_ucs` keep their previous values. -/
theorem load_empty (filename : List Char) (lines : List (List Char))
    (h : buildTable lines = []) (q : STEPProcessorWeb) :
    q.LoadSTEPFile filename lines =
      (false,
       { q with
          m_currentFile := filename
          m_stepData := lines
          m_entities := []
          m_mesh := MeshData.empty
          m_boundingBox := BoundingBox.init }) := by
  simp [STEPProcessorWeb.LoadSTEPFile, STEPProcessorWeb.ParseSTEPFile, h]

theorem extract_fst (s : STEPProcessorWeb) : s.ExtractMesh.1 = true := by
  simp only [STEPProcessorWeb.ExtractMesh]
  split_ifs <;> rfl

theorem load_nonempty (filename : List Char) (lines : List (List Char))
    (h : ¬ buildTable lines = []) (q : STEPProcessorWeb) :
    q.LoadSTEPFile filename lines =
      (true,
       { ({ q with
            m_currentFile := filename
            m_stepData := lines
            m_entities := buildTable lines
            m_mesh := MeshData.empty
            m_boundingBox := BoundingBox.init } : STEPProcessorWeb).ExtractMesh.2
         with m_fileLoaded := true }) := by
  simp only [STEPProcessorWeb.LoadSTEPFile, STEPProcessorWeb.ParseSTEPFile]
  simp [h, extract_fst]

/-- Claim C1 counterexample: reloading a loaded session with a file whose
data section has zero records returns failure, but the entity table has been
cleared — the previous session state is not retained. -/
theorem claim_C1_counterexample :
    (procLoaded.LoadSTEPFile (("b.step").data) linesNoRecords).1 = false ∧
    (procLoaded.LoadSTEPFile (("b.step").data) linesNoRecords).2.m_entities ≠
      procLoaded.m_entities := by
  have h : buildTable linesNoRecords = [] := by decide
  rw [load_empty (("b.step").data) linesNoRecords h procLoaded]
  refine ⟨rfl, ?_⟩
  simp only [procLoaded]
  decide

/-- Claim C1 (amended): when the new file's lines produce zero entity
records, `LoadSTEPFile` returns failure, but the session fields do NOT keep
their previous values: the current file and step data are set to the new
file's, and the entity table, mesh and bounding box are reset; only the
loaded-flag and the UCS keep their previous values (the loaded-flag in
particular stays `true` for a previously loaded session). -/
theorem claim_C1 (p : STEPProcessorWeb) (filename : List Char) (lines : List (List Char))
    (h : buildTable lines = []) :
    p.LoadSTEPFile filename lines =
      (false,
       { p with
          m_currentFile := filename
          m_stepData := lines
          m_entities := []
          m_mesh := MeshData.empty
          m_boundingBox := BoundingBox.init }) :=
  load_empty filename lines h p

/-- Claim C1 witness: the amended statement at a concrete loaded session and
an empty data section. -/
theorem claim_C1_witness :
    buildTable linesNoRecords = [] ∧
    procLoaded.LoadSTEPFile (("b.step").data) linesNoRecords =
      (false,
       { procLoaded with
          m_currentFile := ("b.step").data
          m_stepData := linesNoRecords
          m_entities := []
          m_mesh := MeshData.empty
          m_boundingBox := BoundingBox.init }) :=
  ⟨by decide, claim_C1 procLoaded (("b.step").data) linesNoRecords (by decide)⟩

theorem createUCS_bbox (s : STEPProcessorWeb) : s.CreateUCS.m_boundingBox = s.m_boundingBox := by
  rw [STEPProcessorWeb.CreateUCS]
  split_ifs <;> rfl

theorem createUCS_mesh (s : STEPProcessorWeb) : s.CreateUCS.m_mesh = s.m_mesh := by
  rw [STEPProcessorWeb.CreateUCS]
  split_ifs <;> rfl

theorem createUCS_fileLoaded (s : STEPProcessorWeb) :
    s.CreateUCS.m_fileLoaded = s.m_fileLoaded := by
  rw [STEPProcessorWeb.CreateUCS]
  split_ifs <;> rfl

theorem createUCS_ucs (s : STEPProcessorWeb) :
    s.CreateUCS.m_ucs =
      if s.m_fileLoaded then ucsFromBox s.m_boundingBox else s.m_ucs := by
  rw [STEPProcessorWeb.CreateUCS]
  split_ifs <;> rfl

/-- The bounding box and mesh produced by `ExtractMesh` depend only on the
entity table and the incoming bounding box and mesh. -/
theorem extract_congr (s t : STEPProcessorWeb) (he : s.m_entities = t.m_entities)
    (hb : s.m_boundingBox = t.m_boundingBox) (hm : s.m_mesh = t.m_mesh) :
    s.ExtractMesh.2.m_boundingBox = t.ExtractMesh.2.m_boundingBox ∧
    s.ExtractMesh.2.m_mesh = t.ExtractMesh.2.m_mesh := by
  simp only [STEPProcessorWeb.ExtractMesh, he, hb, hm]
  split_ifs <;> simp

/-- Congruence for the loaded-state UCS computed after extraction. -/
theorem extUCS_congr (s t : STEPProcessorWeb) (he : s.m_entities = t.m_entities)
    (hb : s.m_boundingBox = t.m_boundingBox) (hm : s.m_mesh = t.m_mesh) :
    ({ s.ExtractMesh.2 with m_fileLoaded := true } : STEPProcessorWeb).CreateUCS.m_ucs =
    ({ t.ExtractMesh.2 with m_fileLoaded := true } : STEPProcessorWeb).CreateUCS.m_ucs := by
  rw [createUCS_ucs, createUCS_ucs]
  simp
  exact congrArg ucsFromBox (extract_congr s t he hb hm).1

/-- Claim C8 (confirmed): running load-then-CreateUCS twice on the same file
lines yields identical bounding box, UCS and mesh buffers, from any starting
session state. -/
theorem claim_C8 (p : STEPProcessorWeb) (filename : List Char) (lines : List (List Char)) :
    ((p.LoadSTEPFile filename lines).2.CreateUCS.LoadSTEPFile filename
        lines).2.CreateUCS.m_boundingBox
      = (p.LoadSTEPFile filename lines).2.CreateUCS.m_boundingBox ∧
    ((p.LoadSTEPFile filename lines).2.CreateUCS.LoadSTEPFile filename
        lines).2.CreateUCS.m_ucs
      = (p.LoadSTEPFile filename lines).2.CreateUCS.m_ucs ∧
    ((p.LoadSTEPFile filename lines).2.CreateUCS.LoadSTEPFile filename
        lines).2.CreateUCS.m_mesh
      = (p.LoadSTEPFile filename lines).2.CreateUCS.m_mesh := by
  by_cases h : buildTable lines = []
  · simp only [load_empty filename lines h]
    refine ⟨?_, ?_, ?_⟩
    · rw [createUCS_bbox, createUCS_bbox]
    · rw [createUCS_ucs, createUCS_ucs]
      simp only [createUCS_fileLoaded, createUCS_ucs]
      by_cases hf : p.m_fileLoaded <;> simp [hf]
    · rw [createUCS_mesh, createUCS_mesh]
  · simp only [load_nonempty filename lines h]
    refine ⟨?_, ?_, ?_⟩
    · rw [createUCS_bbox, createUCS_bbox]
      refine (extract_congr ?_ ?_ ?_ ?_ ?_).1 <;> rfl
    · refine extUCS_congr ?_ ?_ ?_ ?_ ?_ <;> rfl
    · rw [createUCS_mesh, createUCS_mesh]
      refine (extract_congr ?_ ?_ ?_ ?_ ?_).2 <;> rfl

/-- Claim C2 counterexample: for the valid dimensions (1,1,1) the box mesh
stores 108 vertex components, i.e. 36 vertex triples — not the 24 triples
the claim states (72 components). -/
theorem claim_C2_counterexample :
    ((STEPProcessorWeb.CreateBoxMesh BoundingBox.init MeshData.empty 1 1 1).2.vertices.length
      = 108) ∧ (108 : ℕ) ≠ 72 := by
  constructor
  · simp [STEPProcessorWeb.CreateBoxMesh, MeshData.addQuad, MeshData.addTriangle, MeshData.empty]
  · decide

/-- Claim C2 (amended): for strictly positive width, height and depth,
`CreateBoxMesh` produces exactly 36 vertex triples (108 components), 36
normal triples (108 components), 12 triangles (36 indices), and every stored
normal triple has unit length.  (Each of the six faces contributes two
triangles of three fresh vertices each; no vertex sharing takes place.) -/
theorem claim_C2 (bb : BoundingBox) (w h d : ℝ) (hw : 0 < w) (hh : 0 < h) (hd : 0 < d) :
    (STEPProcessorWeb.CreateBoxMesh bb MeshData.empty w h d).2.vertices.length = 108 ∧
    (STEPProcessorWeb.CreateBoxMesh bb MeshData.empty w h d).2.normals.length = 108 ∧
    (STEPProcessorWeb.CreateBoxMesh bb MeshData.empty w h d).2.indices.length = 36 ∧
    ∀ n ∈ normTriples (STEPProcessorWeb.CreateBoxMesh bb MeshData.empty w h d).2.normals,
      n.length = 1 := by
  refine ⟨?_, ?_, ?_, ?_⟩
  · simp [STEPProcessorWeb.CreateBoxMesh, MeshData.addQuad, MeshData.addTriangle, MeshData.empty]
  · simp [STEPProcessorWeb.CreateBoxMesh, MeshData.addQuad, MeshData.addTriangle, MeshData.empty]
  · simp [STEPProcessorWeb.CreateBoxMesh, MeshData.addQuad, MeshData.addTriangle, MeshData.empty]
  · rw [box_normals bb MeshData.empty w h d hw hh hd]
    intro n hn
    simp only [MeshData.empty, List.nil_append, List.cons_append, normTriples,
      List.mem_cons, List.not_mem_nil, or_false] at hn
    have h6 : n = ⟨0, 0, 1⟩ ∨ n = ⟨0, 0, -1⟩ ∨ n = ⟨0, 1, 0⟩ ∨ n = ⟨0, -1, 0⟩ ∨
        n = ⟨1, 0, 0⟩ ∨ n = ⟨-1, 0, 0⟩ := by tauto
    rcases h6 with rfl | rfl | rfl | rfl | rfl | rfl
    · exact length_unit_pz
    · exact length_unit_nz
    · exact length_unit_py
    · exact length_unit_ny
    · exact length_unit_px
    · exact length_unit_nx

/-- Claim C2 witness: the amended statement instantiated at dimensions
(1, 2, 3). -/
theorem claim_C2_witness :
    (0 : ℝ) < 1 ∧ (0 : ℝ) < 2 ∧ (0 : ℝ) < 3 ∧
    ((STEPProcessorWeb.CreateBoxMesh BoundingBox.init MeshData.empty 1 2 3).2.vertices.length
        = 108 ∧
     (STEPProcessorWeb.CreateBoxMesh BoundingBox.init MeshData.empty 1 2 3).2.normals.length
        = 108 ∧
     (STEPProcessorWeb.CreateBoxMesh BoundingBox.init MeshData.empty 1 2 3).2.indices.length
        = 36 ∧
     ∀ n ∈ normTriples
        (STEPProcessorWeb.CreateBoxMesh BoundingBox.init MeshData.empty 1 2 3).2.normals,
       n.length = 1) :=
  ⟨by norm_num, by norm_num, by norm_num,
   claim_C2 BoundingBox.init 1 2 3 (by norm_num) (by norm_num) (by norm_num)⟩

theorem cross_e1_e2 : Vector3D.cross ⟨1, 0, 0⟩ ⟨0, 1, 0⟩ = ⟨0, 0, 1⟩ := by
  simp only [Vector3D.cross, Vector3D.mk.injEq]
  norm_num

theorem cross_e3_e1 : Vector3D.cross ⟨0, 0, 1⟩ ⟨1, 0, 0⟩ = ⟨0, 1, 0⟩ := by
  simp only [Vector3D.cross, Vector3D.mk.injEq]
  norm_num

theorem cross_e2_e1 : Vector3D.cross ⟨0, 1, 0⟩ ⟨1, 0, 0⟩ = ⟨0, 0, -1⟩ := by
  simp only [Vector3D.cross, Vector3D.mk.injEq]
  norm_num

theorem cross_ne3_e2 : Vector3D.cross ⟨0, 0, -1⟩ ⟨0, 1, 0⟩ = ⟨1, 0, 0⟩ := by
  simp only [Vector3D.cross, Vector3D.mk.injEq]
  norm_num

theorem cross_e2_e3 : Vector3D.cross ⟨0, 1, 0⟩ ⟨0, 0, 1⟩ = ⟨1, 0, 0⟩ := by
  simp only [Vector3D.cross, Vector3D.mk.injEq]
  norm_num

/-- The three branch results of `ucsFromBox`, fully evaluated. -/
theorem ucsFromBox_cases (bb : BoundingBox) :
    ucsFromBox bb =
      (if bb.dimensions.x ≥ bb.dimensions.y ∧ bb.dimensions.x ≥ bb.dimensions.z then
        (⟨bb.center, ⟨0, 1, 0⟩, ⟨0, 0, 1⟩, ⟨1, 0, 0⟩⟩ : UCS)
      else if bb.dimensions.y ≥ bb.dimensions.x ∧ bb.dimensions.y ≥ bb.dimensions.z then
        ⟨bb.center, ⟨1, 0, 0⟩, ⟨0, 0, -1⟩, ⟨0, 1, 0⟩⟩
      else ⟨bb.center, ⟨1, 0, 0⟩, ⟨0, 1, 0⟩, ⟨0, 0, 1⟩⟩) := by
  by_cases c1 : bb.dimensions.x ≥ bb.dimensions.y ∧ bb.dimensions.x ≥ bb.dimensions.z
  · simp only [ucsFromBox, if_pos c1, cross_e1_e2, normalize_pz 1 one_pos, cross_e3_e1,
      normalize_py 1 one_pos]
  · by_cases c2 : bb.dimensions.y ≥ bb.dimensions.x ∧ bb.dimensions.y ≥ bb.dimensions.z
    · simp only [ucsFromBox, if_neg c1, if_pos c2, cross_e2_e1, normalize_nz 1 one_pos,
        cross_ne3_e2, normalize_px 1 one_pos]
    · simp only [ucsFromBox, if_neg c1, if_neg c2, cross_e3_e1, normalize_py 1 one_pos,
        cross_e2_e3, normalize_px 1 one_pos]

/-- Claim C4 (confirmed): on a loaded session with positive box dimensions,
`CreateUCS` puts the origin at the box center and yields three pairwise
orthogonal unit axes forming a right-handed basis (`zAxis x xAxis = yAxis`),
with `zAxis` the world axis of the longest dimension, ties preferring
X over Y over Z. -/
theorem claim_C4 (p : STEPProcessorWeb) (hl : p.m_fileLoaded = true)
    (hx : 0 < p.m_boundingBox.dimensions.x) (hy : 0 < p.m_boundingBox.dimensions.y)
    (hz : 0 < p.m_boundingBox.dimensions.z) :
    p.CreateUCS.m_ucs.origin = p.m_boundingBox.center ∧
    p.CreateUCS.m_ucs.xAxis.length = 1 ∧
    p.CreateUCS.m_ucs.yAxis.length = 1 ∧
    p.CreateUCS.m_ucs.zAxis.length = 1 ∧
    p.CreateUCS.m_ucs.xAxis.dot p.CreateUCS.m_ucs.yAxis = 0 ∧
    p.CreateUCS.m_ucs.yAxis.dot p.CreateUCS.m_ucs.zAxis = 0 ∧
    p.CreateUCS.m_ucs.xAxis.dot p.CreateUCS.m_ucs.zAxis = 0 ∧
    p.CreateUCS.m_ucs.zAxis.cross p.CreateUCS.m_ucs.xAxis = p.CreateUCS.m_ucs.yAxis ∧
    ((p.m_boundingBox.dimensions.x ≥ p.m_boundingBox.dimensions.y ∧
      p.m_boundingBox.dimensions.x ≥ p.m_boundingBox.dimensions.z) →
        p.CreateUCS.m_ucs.zAxis = ⟨1, 0, 0⟩) ∧
    (¬(p.m_boundingBox.dimensions.x ≥ p.m_boundingBox.dimensions.y ∧
       p.m_boundingBox.dimensions.x ≥ p.m_boundingBox.dimensions.z) ∧
     (p.m_boundingBox.dimensions.y ≥ p.m_boundingBox.dimensions.x ∧
      p.m_boundingBox.dimensions.y ≥ p.m_boundingBox.dimensions.z) →
        p.CreateUCS.m_ucs.zAxis = ⟨0, 1, 0⟩) ∧
    (¬(p.m_boundingBox.dimensions.x ≥ p.m_boundingBox.dimensions.y ∧
       p.m_boundingBox.dimensions.x ≥ p.m_boundingBox.dimensions.z) ∧
     ¬(p.m_boundingBox.dimensions.y ≥ p.m_boundingBox.dimensions.x ∧
       p.m_boundingBox.dimensions.y ≥ p.m_boundingBox.dimensions.z) →
        p.CreateUCS.m_ucs.zAxis = ⟨0, 0, 1⟩) := by
  have hucs : p.CreateUCS.m_ucs = ucsFromBox p.m_boundingBox := by
    rw [STEPProcessorWeb.CreateUCS, if_pos hl]
  rw [hucs, ucsFromBox_cases]
  by_cases c1 : p.m_boundingBox.dimensions.x ≥ p.m_boundingBox.dimensions.y ∧
      p.m_boundingBox.dimensions.x ≥ p.m_boundingBox.dimensions.z
  · rw [if_pos c1]
    refine ⟨rfl, length_unit_py, length_unit_pz, length_unit_px, ?_, ?_, ?_, cross_e1_e2,
      fun _ => rfl, fun hcon => absurd c1 hcon.1, fun hcon => absurd c1 hcon.1⟩
    · simp [Vector3D.dot]
    · simp [Vector3D.dot]
    · simp [Vector3D.dot]
  · by_cases c2 : p.m_boundingBox.dimensions.y ≥ p.m_boundingBox.dimensions.x ∧
        p.m_boundingBox.dimensions.y ≥ p.m_boundingBox.dimensions.z
    · rw [if_neg c1, if_pos c2]
      refine ⟨rfl, length_unit_px, length_unit_nz, length_unit_py, ?_, ?_, ?_, cross_e2_e1,
        fun hcon => absurd hcon c1, fun _ => rfl, fun hcon => absurd c2 hcon.2⟩
      · simp [Vector3D.dot]
      · simp [Vector3D.dot]
      · simp [Vector3D.dot]
    · rw [if_neg c1, if_neg c2]
      refine ⟨rfl, length_unit_px, length_unit_py, length_unit_pz, ?_, ?_, ?_, cross_e3_e1,
        fun hcon => absurd hcon c1, fun hcon => absurd hcon.2 c2, fun _ => rfl⟩
      · simp [Vector3D.dot]
      · simp [Vector3D.dot]
      · simp [Vector3D.dot]

/-- Claim C4 witness: the loaded session with box `(0,0,0)..(3,2,1)`
(x dominant) gets `zAxis = (1,0,0)`. -/
theorem claim_C4_witness :
    procBox321.m_fileLoaded = true ∧
    0 < procBox321.m_boundingBox.dimensions.x ∧
    0 < procBox321.m_boundingBox.dimensions.y ∧
    0 < procBox321.m_boundingBox.dimensions.z ∧
    procBox321.CreateUCS.m_ucs.zAxis = ⟨1, 0, 0⟩ := by
  have h1 : procBox321.m_fileLoaded = true := rfl
  have h2 : 0 < procBox321.m_boundingBox.dimensions.x := by
    norm_num [procBox321, BoundingBox.dimensions]
  have h3 : 0 < procBox321.m_boundingBox.dimensions.y := by
    norm_num [procBox321, BoundingBox.dimensions]
  have h4 : 0 < procBox321.m_boundingBox.dimensions.z := by
    norm_num [procBox321, BoundingBox.dimensions]
  refine ⟨h1, h2, h3, h4, ?_⟩
  exact (claim_C4 procBox321 h1 h2 h3 h4).2.2.2.2.2.2.2.2.1
    (by norm_num [procBox321, BoundingBox.dimensions])

/-- Claim C9 (confirmed): `normalize` yields a unit-length vector whenever
the input length is nonzero, and returns the vector unchanged when the
length is zero — the division is only ever performed with a positive
divisor. -/
theorem claim_C9 (v : Vector3D) :
    (v.length ≠ 0 → v.normalize.length = 1) ∧ (v.length = 0 → v.normalize = v) := by
  constructor
  · exact normalize_length v
  · intro h
    have hng : ¬ 0 < v.length := by rw [h]; exact lt_irrefl 0
    rw [Vector3D.normalize, if_neg hng]

/-- Claim C9 witness: the vector (0,0,2) normalizes to unit length, and the
zero vector is returned unchanged. -/
theorem claim_C9_witness :
    Vector3D.length ⟨0, 0, 2⟩ ≠ 0 ∧ Vector3D.length (Vector3D.normalize ⟨0, 0, 2⟩) = 1 ∧
    Vector3D.length ⟨0, 0, 0⟩ = 0 ∧ Vector3D.normalize ⟨0, 0, 0⟩ = ⟨0, 0, 0⟩ := by
  have hl2 : Vector3D.length ⟨0, 0, 2⟩ = 2 := by
    rw [Vector3D.length]
    rw [show (0:ℝ) * 0 + 0 * 0 + 2 * 2 = 2 * 2 by ring,
      Real.sqrt_mul_self (by norm_num : (0:ℝ) ≤ 2)]
  have h0 : Vector3D.length ⟨0, 0, 0⟩ = 0 := by
    rw [Vector3D.length]
    norm_num
  exact ⟨by rw [hl2]; norm_num, (claim_C9 ⟨0, 0, 2⟩).1 (by rw [hl2]; norm_num), h0,
    (claim_C9 ⟨0, 0, 0⟩).2 h0⟩

set_option maxRecDepth 10000 in
/-- The single cartesian point of `linesBigX` parses to `(1e9, 0, 0)`. -/
theorem bigx_point :
    STEPProcessorWeb.ParseCartesianPoint (("('',(1000000000.0,0.0,0.0));").data) =
      ⟨1000000000, 0, 0⟩ := by
  have hct : coordText (("('',(1000000000.0,0.0,0.0));").data) =
      some (("1000000000.0,0.0,0.0)").data) := by decide
  have hrc : runCoordParse (("1000000000.0,0.0,0.0)").data) =
      ((10000000000, -1), (0, -1), (0, -1)) := by decide
  simp only [STEPProcessorWeb.ParseCartesianPoint, hct, hrc]
  have d1 : decValR (10000000000, -1) = 1000000000 := by norm_num [decValR]
  have d0 : decValR (0, -1) = 0 := by norm_num [decValR]
  rw [Point3D.mk.injEq]
  exact ⟨d1, d0, d0⟩

set_option maxRecDepth 10000 in
/-- Claim C10 (confirmed): the empty-box sentinel is `(±1e9)`, not infinite;
a single expansion with a point strictly inside `(-1e9, 1e9)` gives
`min = max = point`; a coordinate of magnitude at least `1e9` leaves the
corresponding sentinel bound in place; and the file whose only
`CARTESIAN_POINT` has `x = 1e9` fails the extractor's `min.x < max.x`
usable-geometry test. -/
theorem claim_C10 :
    (∀ p : Point3D, |p.x| < 1000000000 → |p.y| < 1000000000 → |p.z| < 1000000000 →
      BoundingBox.init.expand p = ⟨p, p⟩) ∧
    (∀ p : Point3D,
      ((1000000000 : ℝ) ≤ |p.x| →
        (BoundingBox.init.expand p).min.x = 1000000000 ∨
        (BoundingBox.init.expand p).max.x = -1000000000) ∧
      ((1000000000 : ℝ) ≤ |p.y| →
        (BoundingBox.init.expand p).min.y = 1000000000 ∨
        (BoundingBox.init.expand p).max.y = -1000000000) ∧
      ((1000000000 : ℝ) ≤ |p.z| →
        (BoundingBox.init.expand p).min.z = 1000000000 ∨
        (BoundingBox.init.expand p).max.z = -1000000000)) ∧
    ¬((extractPoints (buildTable linesBigX) BoundingBox.init).min.x <
      (extractPoints (buildTable linesBigX) BoundingBox.init).max.x) := by
  refine ⟨?_, ?_, ?_⟩
  · intro p h1 h2 h3
    simp only [BoundingBox.expand, BoundingBox.init]
    rw [min_eq_right (abs_lt.mp h1).2.le, min_eq_right (abs_lt.mp h2).2.le,
      min_eq_right (abs_lt.mp h3).2.le, max_eq_right (abs_lt.mp h1).1.le,
      max_eq_right (abs_lt.mp h2).1.le, max_eq_right (abs_lt.mp h3).1.le]
  · intro p
    refine ⟨?_, ?_, ?_⟩
    · intro h
      rcases le_abs.mp h with h' | h'
      · left
        simp only [BoundingBox.expand, BoundingBox.init]
        exact min_eq_left h'
      · right
        simp only [BoundingBox.expand, BoundingBox.init]
        exact max_eq_left (by linarith)
    · intro h
      rcases le_abs.mp h with h' | h'
      · left
        simp only [BoundingBox.expand, BoundingBox.init]
        exact min_eq_left h'
      · right
        simp only [BoundingBox.expand, BoundingBox.init]
        exact max_eq_left (by linarith)
    · intro h
      rcases le_abs.mp h with h' | h'
      · left
        simp only [BoundingBox.expand, BoundingBox.init]
        exact min_eq_left h'
      · right
        simp only [BoundingBox.expand, BoundingBox.init]
        exact max_eq_left (by linarith)
  · have ht : buildTable linesBigX =
        [(1, ⟨1, cartesianTag, ("('',(1000000000.0,0.0,0.0));").data⟩)] := by decide
    have hstep : extractPoints (buildTable linesBigX) BoundingBox.init =
        BoundingBox.init.expand
          (STEPProcessorWeb.ParseCartesianPoint (("('',(1000000000.0,0.0,0.0));").data)) := by
      rw [ht]
      rfl
    rw [hstep, bigx_point]
    simp only [BoundingBox.expand, BoundingBox.init]
    norm_num

/-- Claim C10 witness: the point (3,4,5) expands the empty box to itself, and
a point with `x = 2e9` keeps the sentinel `min.x = 1e9`. -/
theorem claim_C10_witness :
    |(Point3D.mk 3 4 5).x| < 1000000000 ∧
    BoundingBox.init.expand ⟨3, 4, 5⟩ = ⟨⟨3, 4, 5⟩, ⟨3, 4, 5⟩⟩ ∧
    (1000000000 : ℝ) ≤ |(Point3D.mk 2000000000 0 0).x| ∧
    ((BoundingBox.init.expand ⟨2000000000, 0, 0⟩).min.x = 1000000000 ∨
     (BoundingBox.init.expand ⟨2000000000, 0, 0⟩).max.x = -1000000000) := by
  refine ⟨by norm_num, claim_C10.1 ⟨3, 4, 5⟩ (by norm_num) (by norm_num) (by norm_num),
    by norm_num, (claim_C10.2.1 ⟨2000000000, 0, 0⟩).1 (by norm_num)⟩

set_option maxRecDepth 10000 in
theorem rt_table : buildTable linesRoundTrip =
    [(1, ⟨1, cartesianTag, ("('',(-10.0,-5.0,-2.0));").data⟩),
     (2, ⟨2, cartesianTag, ("('',(10.0,5.0,8.0));").data⟩)] := by decide

set_option maxRecDepth 10000 in
theorem rt_p1 : STEPProcessorWeb.ParseCartesianPoint (("('',(-10.0,-5.0,-2.0));").data) =
    ⟨-10, -5, -2⟩ := by
  have hct : coordText (("('',(-10.0,-5.0,-2.0));").data) =
      some (("-10.0,-5.0,-2.0)").data) := by decide
  have hrc : runCoordParse (("-10.0,-5.0,-2.0)").data) =
      ((-100, -1), (-50, -1), (-20, -1)) := by decide
  simp only [STEPProcessorWeb.ParseCartesianPoint, hct, hrc]
  rw [Point3D.mk.injEq]
  refine ⟨by norm_num [decValR], by norm_num [decValR], by norm_num [decValR]⟩

set_option maxRecDepth 10000 in
theorem rt_p2 : STEPProcessorWeb.ParseCartesianPoint (("('',(10.0,5.0,8.0));").data) =
    ⟨10, 5, 8⟩ := by
  have hct : coordText (("('',(10.0,5.0,8.0));").data) =
      some (("10.0,5.0,8.0)").data) := by decide
  have hrc : runCoordParse (("10.0,5.0,8.0)").data) =
      ((100, -1), (50, -1), (80, -1)) := by decide
  simp only [STEPProcessorWeb.ParseCartesianPoint, hct, hrc]
  rw [Point3D.mk.injEq]
  refine ⟨by norm_num [decValR], by norm_num [decValR], by norm_num [decValR]⟩

theorem rt_bb1 : extractPoints (buildTable linesRoundTrip) BoundingBox.init =
    ⟨⟨-10, -5, -2⟩, ⟨10, 5, 8⟩⟩ := by
  have hstep : extractPoints (buildTable linesRoundTrip) BoundingBox.init =
      (BoundingBox.init.expand
        (STEPProcessorWeb.ParseCartesianPoint (("('',(-10.0,-5.0,-2.0));").data))).expand
        (STEPProcessorWeb.ParseCartesianPoint (("('',(10.0,5.0,8.0));").data)) := by
    rw [rt_table]
    rfl
  rw [hstep, rt_p1, rt_p2]
  simp only [BoundingBox.expand, BoundingBox.init]
  rw [BoundingBox.mk.injEq, Point3D.mk.injEq, Point3D.mk.injEq]
  norm_num [min_def, max_def]

/-- `ExtractMesh` on a non-empty table with usable x-extent: the mesh is
built from the extracted dimensions. -/
theorem extract_usable (s : STEPProcessorWeb) (hne : ¬ s.m_entities = [])
    (hlt : (extractPoints s.m_entities s.m_boundingBox).min.x <
      (extractPoints s.m_entities s.m_boundingBox).max.x) :
    s.ExtractMesh.2 =
      { s with
         m_boundingBox := (STEPProcessorWeb.CreateBoxMesh
            (extractPoints s.m_entities s.m_boundingBox) s.m_mesh
            (extractPoints s.m_entities s.m_boundingBox).dimensions.x
            (extractPoints s.m_entities s.m_boundingBox).dimensions.y
            (extractPoints s.m_entities s.m_boundingBox).dimensions.z).1
         m_mesh := (STEPProcessorWeb.CreateBoxMesh
            (extractPoints s.m_entities s.m_boundingBox) s.m_mesh
            (extractPoints s.m_entities s.m_boundingBox).dimensions.x
            (extractPoints s.m_entities s.m_boundingBox).dimensions.y
            (extractPoints s.m_entities s.m_boundingBox).dimensions.z).2 } := by
  rw [STEPProcessorWeb.ExtractMesh]
  simp only [if_neg hne, if_pos hlt]

theorem rt_box_bb :
    (STEPProcessorWeb.CreateBoxMesh (⟨⟨-10, -5, -2⟩, ⟨10, 5, 8⟩⟩ : BoundingBox)
      MeshData.empty 20 10 10).1 = ⟨⟨-10, -5, -5⟩, ⟨10, 5, 8⟩⟩ := by
  simp only [STEPProcessorWeb.CreateBoxMesh, BoundingBox.expand]
  rw [BoundingBox.mk.injEq, Point3D.mk.injEq, Point3D.mk.injEq]
  norm_num [min_def, max_def]

theorem rt_load (q : STEPProcessorWeb) (filename : List Char) :
    (q.LoadSTEPFile filename linesRoundTrip).2.m_boundingBox = ⟨⟨-10, -5, -5⟩, ⟨10, 5, 8⟩⟩ ∧
    (q.LoadSTEPFile filename linesRoundTrip).2.m_fileLoaded = true := by
  have hne : ¬ buildTable linesRoundTrip = [] := by rw [rt_table]; simp
  rw [load_nonempty filename linesRoundTrip hne q]
  refine ⟨?_, rfl⟩
  have h2 : ({ q with
      m_currentFile := filename
      m_stepData := linesRoundTrip
      m_entities := buildTable linesRoundTrip
      m_mesh := MeshData.empty
      m_boundingBox := BoundingBox.init } : STEPProcessorWeb).ExtractMesh.2.m_boundingBox
      = ⟨⟨-10, -5, -5⟩, ⟨10, 5, 8⟩⟩ := by
    rw [extract_usable _ (by simp [rt_table]) (by simp only [rt_bb1]; norm_num)]
    simp only [rt_bb1]
    have hd : (BoundingBox.mk ⟨-10, -5, -2⟩ ⟨10, 5, 8⟩).dimensions = ⟨20, 10, 10⟩ := by
      rw [BoundingBox.dimensions]
      rw [Vector3D.mk.injEq]
      norm_num
    rw [hd]
    exact rt_box_bb
  exact h2

theorem rt_pipe (q : STEPProcessorWeb) (filename : List Char) :
    (q.LoadSTEPFile filename linesRoundTrip).2.CreateUCS.m_boundingBox
      = ⟨⟨-10, -5, -5⟩, ⟨10, 5, 8⟩⟩ ∧
    (q.LoadSTEPFile filename linesRoundTrip).2.CreateUCS.m_ucs.origin = ⟨0, 0, 3/2⟩ ∧
    (q.LoadSTEPFile filename linesRoundTrip).2.CreateUCS.m_ucs.zAxis = ⟨1, 0, 0⟩ := by
  obtain ⟨hb, hf⟩ := rt_load q filename
  have hu : (q.LoadSTEPFile filename linesRoundTrip).2.CreateUCS.m_ucs =
      ucsFromBox (⟨⟨-10, -5, -5⟩, ⟨10, 5, 8⟩⟩ : BoundingBox) := by
    rw [createUCS_ucs, hf, hb]
    simp
  have hcase : ucsFromBox (⟨⟨-10, -5, -5⟩, ⟨10, 5, 8⟩⟩ : BoundingBox) =
      ⟨(⟨⟨-10, -5, -5⟩, ⟨10, 5, 8⟩⟩ : BoundingBox).center, ⟨0, 1, 0⟩, ⟨0, 0, 1⟩, ⟨1, 0, 0⟩⟩ := by
    rw [ucsFromBox_cases]
    rw [if_pos]
    constructor
    · rw [BoundingBox.dimensions]
      norm_num
    · rw [BoundingBox.dimensions]
      norm_num
  have hcen : (⟨⟨-10, -5, -5⟩, ⟨10, 5, 8⟩⟩ : BoundingBox).center = ⟨0, 0, 3/2⟩ := by
    rw [BoundingBox.center]
    rw [Point3D.mk.injEq]
    norm_num
  refine ⟨by rw [createUCS_bbox, hb], ?_, ?_⟩
  · rw [hu, hcase, hcen]
  · rw [hu, hcase]

/-- Claim C3 (amended): loading the two-point round-trip file and running
`CreateUCS` yields bounding box `min = (-10,-5,-5)`, `max = (10,5,8)` (the
mesh builder re-expands the box with the synthetic box corners, which are
centered at the origin), UCS origin `(0,0,1.5)`, and `zAxis = (1,0,0)`. -/
theorem claim_C3 (q : STEPProcessorWeb) (filename : List Char) :
    (q.LoadSTEPFile filename linesRoundTrip).2.CreateUCS.m_boundingBox
      = ⟨⟨-10, -5, -5⟩, ⟨10, 5, 8⟩⟩ ∧
    (q.LoadSTEPFile filename linesRoundTrip).2.CreateUCS.m_ucs.origin = ⟨0, 0, 3/2⟩ ∧
    (q.LoadSTEPFile filename linesRoundTrip).2.CreateUCS.m_ucs.zAxis = ⟨1, 0, 0⟩ :=
  rt_pipe q filename

/-- Claim C3 counterexample: on the round-trip file the final bounding box
has `min.z = -5`, not `-2`, and the UCS origin has `z = 1.5`, not `0`. -/
theorem claim_C3_counterexample :
    ((STEPProcessorWeb.mkNew.LoadSTEPFile (("part.step").data)
        linesRoundTrip).2.CreateUCS.m_boundingBox.min.z = -5 ∧ (-5 : ℝ) ≠ -2) ∧
    ((STEPProcessorWeb.mkNew.LoadSTEPFile (("part.step").data)
        linesRoundTrip).2.CreateUCS.m_ucs.origin.z = 3/2 ∧ (3 : ℝ)/2 ≠ 0) := by
  obtain ⟨hb, ho, hz⟩ := rt_pipe STEPProcessorWeb.mkNew (("part.step").data)
  refine ⟨⟨by rw [hb], by norm_num⟩, ⟨by rw [ho], by norm_num⟩⟩

set_option maxRecDepth 10000 in
/-- Claim C5 counterexample: for two complete records with id `#1`, the
entity table keeps the FIRST record (`PRODUCT`), not the later `SHAPE`
record — `emplace` does not overwrite. -/
theorem claim_C5_counterexample :
    buildTable linesDupId = [(1, ⟨1, ("PRODUCT").data, ("(A);").data⟩)] ∧
    (⟨1, ("PRODUCT").data, ("(A);").data⟩ : STEPEntity) ≠ ⟨1, ("SHAPE").data, ("(B);").data⟩ :=
  ⟨by decide, by decide⟩

/-- Claim C5 (amended): a complete record whose id already exists in the
table leaves the table unchanged (first write wins); no duplicate-id error
exists — record handling only ever inserts or silently ignores. -/
theorem claim_C5 (t : Table) (buf : List Char) (e : STEPEntity)
    (hp : parseRecord buf = some e) (hdup : t.any (fun q => q.1 == e.id) = true) :
    processBuf t buf = t := by
  simp only [processBuf, hp]
  simp [emplaceEntity, hdup]

/-- Claim C5 witness: inserting `#1=B(x);` into a table already holding id 1
leaves the table unchanged. -/
theorem claim_C5_witness :
    parseRecord (("#1=B(x);").data) = some ⟨1, ("B").data, ("(x);").data⟩ ∧
    [((1 : ℤ), (⟨1, ("A").data, ("(y);").data⟩ : STEPEntity))].any
      (fun q => q.1 == (⟨1, ("B").data, ("(x);").data⟩ : STEPEntity).id) = true ∧
    processBuf [(1, ⟨1, ("A").data, ("(y);").data⟩)] (("#1=B(x);").data)
      = [(1, ⟨1, ("A").data, ("(y);").data⟩)] :=
  ⟨by decide, by decide,
   claim_C5 [(1, ⟨1, ("A").data, ("(y);").data⟩)] (("#1=B(x);").data)
     ⟨1, ("B").data, ("(x);").data⟩ (by decide) (by decide)⟩

/-- Claim C6 (amended): a `CARTESIAN_POINT` entity always expands the
running bounding box with the value of `ParseCartesianPoint` — for a payload
whose coordinate text cannot be located that value is the default point
`(0,0,0)`, so the box is NOT left unchanged; extraction continues and the
load never aborts (`ExtractMesh` always reports success). -/
theorem claim_C6 (rest : Table) (b : BoundingBox) (idx : ℤ) (e : STEPEntity)
    (hty : e.type = cartesianTag) :
    extractPoints ((idx, e) :: rest) b =
      extractPoints rest (b.expand (STEPProcessorWeb.ParseCartesianPoint e.data)) ∧
    (coordText e.data = none → STEPProcessorWeb.ParseCartesianPoint e.data = ⟨0, 0, 0⟩) ∧
    (∀ s : STEPProcessorWeb, s.ExtractMesh.1 = true) := by
  refine ⟨?_, ?_, extract_fst⟩
  · simp [extractPoints, hty]
  · intro hn
    simp [STEPProcessorWeb.ParseCartesianPoint, hn]

/-- Claim C6 witness: the malformed point entity expands the box `bbFive`
with the default point, and `ExtractMesh` still succeeds. -/
theorem claim_C6_witness :
    malformedPoint.type = cartesianTag ∧
    extractPoints [(2, malformedPoint)] bbFive =
      extractPoints []
        (bbFive.expand (STEPProcessorWeb.ParseCartesianPoint malformedPoint.data)) ∧
    (coordText malformedPoint.data = none →
      STEPProcessorWeb.ParseCartesianPoint malformedPoint.data = ⟨0, 0, 0⟩) ∧
    (∀ s : STEPProcessorWeb, s.ExtractMesh.1 = true) :=
  ⟨by decide, (claim_C6 [] bbFive 2 malformedPoint (by decide)).1,
   (claim_C6 [] bbFive 2 malformedPoint (by decide)).2.1,
   (claim_C6 [] bbFive 2 malformedPoint (by decide)).2.2⟩

/-- Claim C6 counterexample: a `CARTESIAN_POINT` whose payload fails to
parse (no second parenthesis) changes the running bounding box — `(5,5,5)`
is dragged to include the default point `(0,0,0)`. -/
theorem claim_C6_counterexample :
    extractPoints [(2, malformedPoint)] bbFive ≠ bbFive := by
  have h2 : STEPProcessorWeb.ParseCartesianPoint (("('');").data) = ⟨0, 0, 0⟩ := by
    have hct : coordText (("('');").data) = none := by decide
    simp [STEPProcessorWeb.ParseCartesianPoint, hct]
  have h1 : extractPoints [(2, malformedPoint)] bbFive = bbFive.expand ⟨0, 0, 0⟩ := by
    have hr : extractPoints [(2, malformedPoint)] bbFive =
        bbFive.expand (STEPProcessorWeb.ParseCartesianPoint (("('');").data)) := rfl
    rw [hr, h2]
  intro heq
  rw [h1] at heq
  have hx := congrArg (fun b => b.min.x) heq
  simp only [BoundingBox.expand, bbFive] at hx
  norm_num [min_def] at hx

set_option maxRecDepth 10000 in
theorem flat_p1 : STEPProcessorWeb.ParseCartesianPoint (("('',(0.0,0.0,0.0));").data) =
    ⟨0, 0, 0⟩ := by
  have hct : coordText (("('',(0.0,0.0,0.0));").data) = some (("0.0,0.0,0.0)").data) := by
    decide
  have hrc : runCoordParse (("0.0,0.0,0.0)").data) = ((0, -1), (0, -1), (0, -1)) := by decide
  simp only [STEPProcessorWeb.ParseCartesianPoint, hct, hrc]
  rw [Point3D.mk.injEq]
  refine ⟨by norm_num [decValR], by norm_num [decValR], by norm_num [decValR]⟩

set_option maxRecDepth 10000 in
theorem flat_p2 : STEPProcessorWeb.ParseCartesianPoint (("('',(10.0,0.0,0.0));").data) =
    ⟨10, 0, 0⟩ := by
  have hct : coordText (("('',(10.0,0.0,0.0));").data) = some (("10.0,0.0,0.0)").data) := by
    decide
  have hrc : runCoordParse (("10.0,0.0,0.0)").data) = ((100, -1), (0, -1), (0, -1)) := by
    decide
  simp only [STEPProcessorWeb.ParseCartesianPoint, hct, hrc]
  rw [Point3D.mk.injEq]
  refine ⟨by norm_num [decValR], by norm_num [decValR], by norm_num [decValR]⟩

theorem flat_bb : extractPoints procFlat.m_entities procFlat.m_boundingBox =
    ⟨⟨0, 0, 0⟩, ⟨10, 0, 0⟩⟩ := by
  have hstep : extractPoints procFlat.m_entities procFlat.m_boundingBox =
      (BoundingBox.init.expand
        (STEPProcessorWeb.ParseCartesianPoint (("('',(0.0,0.0,0.0));").data))).expand
        (STEPProcessorWeb.ParseCartesianPoint (("('',(10.0,0.0,0.0));").data)) := rfl
  rw [hstep, flat_p1, flat_p2]
  simp only [BoundingBox.expand, BoundingBox.init]
  rw [BoundingBox.mk.injEq, Point3D.mk.injEq, Point3D.mk.injEq]
  norm_num [min_def, max_def]

theorem box_head (bb : BoundingBox) (w h d : ℝ) :
    (STEPProcessorWeb.CreateBoxMesh bb MeshData.empty w h d).2.vertices.head?
      = some (-(w/2)) := by
  simp [STEPProcessorWeb.CreateBoxMesh, MeshData.addQuad, MeshData.addTriangle, MeshData.empty]

/-- Claim C7 (amended): with a non-empty entity table the load never fails
(`ExtractMesh` always succeeds), and the default `100 x 60 x 40` extent is
used exactly when the extracted box fails the `min.x < max.x` test; when the
x-extent is usable the extracted dimensions are passed to the mesh builder
even if the y or z extent is degenerate (`<= 0`). -/
theorem claim_C7 (s : STEPProcessorWeb) (hne : ¬ s.m_entities = []) :
    s.ExtractMesh.1 = true ∧
    ((extractPoints s.m_entities s.m_boundingBox).min.x <
        (extractPoints s.m_entities s.m_boundingBox).max.x →
      s.ExtractMesh.2.m_mesh = (STEPProcessorWeb.CreateBoxMesh
        (extractPoints s.m_entities s.m_boundingBox) s.m_mesh
        (extractPoints s.m_entities s.m_boundingBox).dimensions.x
        (extractPoints s.m_entities s.m_boundingBox).dimensions.y
        (extractPoints s.m_entities s.m_boundingBox).dimensions.z).2) ∧
    (¬((extractPoints s.m_entities s.m_boundingBox).min.x <
        (extractPoints s.m_entities s.m_boundingBox).max.x) →
      s.ExtractMesh.2.m_mesh = (STEPProcessorWeb.CreateBoxMesh
        (extractPoints s.m_entities s.m_boundingBox) s.m_mesh 100 60 40).2) := by
  refine ⟨extract_fst s, ?_, ?_⟩
  · intro h
    rw [STEPProcessorWeb.ExtractMesh]
    simp only [if_neg hne, if_pos h]
  · intro h
    rw [STEPProcessorWeb.ExtractMesh]
    simp only [if_neg hne, if_neg h]

/-- Claim C7 witness: the two-point table with degenerate y/z extents still
loads successfully. -/
theorem claim_C7_witness :
    ¬ procFlat.m_entities = [] ∧ procFlat.ExtractMesh.1 = true :=
  ⟨by decide, (claim_C7 procFlat (by decide)).1⟩

/-- Claim C7 counterexample: for points `(0,0,0)` and `(10,0,0)` the
extracted y and z dimensions are 0 (degenerate), yet the mesh is built from
the extracted extent `10 x 0 x 0` (first vertex component `-5`), not from
the default extent `100 x 60 x 40` (which would give `-50`). -/
theorem claim_C7_counterexample :
    procFlat.ExtractMesh.2.m_mesh.vertices.head? = some (-5) ∧ ((-5 : ℝ) ≠ -50) := by
  have hlt : (extractPoints procFlat.m_entities procFlat.m_boundingBox).min.x <
      (extractPoints procFlat.m_entities procFlat.m_boundingBox).max.x := by
    rw [flat_bb]
    norm_num
  rw [extract_usable procFlat (by decide) hlt]
  simp only [flat_bb]
  have hd : (BoundingBox.mk ⟨0, 0, 0⟩ ⟨10, 0, 0⟩).dimensions = ⟨10, 0, 0⟩ := by
    rw [BoundingBox.dimensions]
    rw [Vector3D.mk.injEq]
    norm_num
  rw [hd]
  have hm : procFlat.m_mesh = MeshData.empty := rfl
  rw [hm, box_head]
  norm_num
